import Mathlib

/-!
Shallow embedding of `src/services/InputManager.js` (pico-ios input-routing
core): device sampling, button mapping, mode dispatch / edge detection,
the shared pico-8 gameplay bitmask, the swap-guard, and lifecycle calls.
JS objects with boolean fields become Lean structures; the mutable
`lastButtonState` object becomes an `EdgeState` record indexed by the
emitted event names; `window.pico8_buttons[0]` becomes the `pico8` field;
event emission is modelled by returning the list of emitted event names.
-/

namespace PicoInput

/-- Interaction mode, `state.inputMode` in the source: "UI" (Navigation) or
"GAME" (Gameplay). -/
inductive Mode where
  | UI
  | GAME
deriving DecidableEq, Repr

/-- Logical event names emitted through the listener set: "menu", "nav-up",
"nav-down", "nav-left", "nav-right", "confirm", "back". -/
inductive Ev where
  | menu
  | navUp
  | navDown
  | navLeft
  | navRight
  | confirm
  | back
deriving DecidableEq, Repr

/-- The per-frame raw input buffer `_inputBuffer`. -/
structure Buf where
  up : Bool
  down : Bool
  left : Bool
  right : Bool
  a : Bool
  b : Bool
  x : Bool
  y : Bool
  start : Bool
  select : Bool
deriving DecidableEq, Repr

/-- A connected gamepad as the sampler sees it: `buttons[i]?.pressed` is
`buttons i` (`none` = entry absent / undefined) and `axes[i]` is `axes i`
(`none` = absent; a JS comparison against `undefined` yields `false`). -/
structure Gamepad where
  buttons : Nat → Option Bool
  axes : Nat → Option ℚ

/-- The keyboard table `this.keys`; a key absent from the JS object reads
`undefined`, which is falsy, so the table is total into `Bool`. -/
abbrev Keys := String → Bool

/-- Edge memory `lastButtonState`, one flag per tracked event name. -/
structure EdgeState where
  menu : Bool
  navUp : Bool
  navDown : Bool
  navLeft : Bool
  navRight : Bool
  confirm : Bool
  back : Bool
deriving DecidableEq, Repr

/-- The fresh `lastButtonState` object: every event not pressed. -/
def EdgeState.init : EdgeState :=
  { menu := false, navUp := false, navDown := false, navLeft := false
    navRight := false, confirm := false, back := false }

/-- Read one event's edge-memory flag. -/
def EdgeState.get (es : EdgeState) : Ev → Bool
  | Ev.menu => es.menu
  | Ev.navUp => es.navUp
  | Ev.navDown => es.navDown
  | Ev.navLeft => es.navLeft
  | Ev.navRight => es.navRight
  | Ev.confirm => es.confirm
  | Ev.back => es.back

/-- Write one event's edge-memory flag. -/
def EdgeState.set (es : EdgeState) : Ev → Bool → EdgeState
  | Ev.menu, v => { es with menu := v }
  | Ev.navUp, v => { es with navUp := v }
  | Ev.navDown, v => { es with navDown := v }
  | Ev.navLeft, v => { es with navLeft := v }
  | Ev.navRight, v => { es with navRight := v }
  | Ev.confirm, v => { es with confirm := v }
  | Ev.back, v => { es with back := v }

/-- Whole-service state of `InputManagerService`. -/
structure IMState where
  inputMode : Mode
  active : Bool
  lastButtonState : EdgeState
  inputBuffer : Buf
  swapButtons : Bool
  justSwapped : Bool
  isAndroid : Bool
  keys : Keys
  pico8 : Nat
  loopScheduled : Bool
  keyboardAttached : Bool

/-- The constructor's initial state (keyboard not yet attached, loop not yet
scheduled, `pico8_buttons[0]` created as 0). -/
def initState : IMState :=
  { inputMode := Mode.UI
    active := false
    lastButtonState := EdgeState.init
    inputBuffer :=
      { up := false, down := false, left := false, right := false
        a := false, b := false, x := false, y := false
        start := false, select := false }
    swapButtons := false
    justSwapped := false
    isAndroid := false
    keys := fun _ => false
    pico8 := 0
    loopScheduled := false
    keyboardAttached := false }

/-- A negative axis deflection test `axes[i] < -0.5`: against an absent axis
the JS comparison is false. -/
def axisNeg (axes : Nat → Option ℚ) (i : Nat) : Bool :=
  match axes i with
  | none => false
  | some v => decide (v < -(1 / 2 : ℚ))

/-- A positive axis deflection test `axes[i] > 0.5`: against an absent axis
the JS comparison is false. -/
def axisPos (axes : Nat → Option ℚ) (i : Nat) : Bool :=
  match axes i with
  | none => false
  | some v => decide (v > (1 / 2 : ℚ))

/-- The device sampler: refill the (reused) input buffer from the first
gamepad, if any, then OR the keyboard arrow keys into the direction flags.
All ten fields are assigned unconditionally, exactly as in `poll`. -/
def sample (gp : Option Gamepad) (keys : Keys) (old : Buf) : Buf :=
  let buf :=
    match gp with
    | some g =>
        { old with
          a := (g.buttons 0).getD false
          b := (g.buttons 1).getD false
          x := (g.buttons 2).getD false
          y := (g.buttons 3).getD false
          select := (g.buttons 8).getD false
          start := (g.buttons 9).getD false
          up := (g.buttons 12).getD false || axisNeg g.axes 1
          down := (g.buttons 13).getD false || axisPos g.axes 1
          left := (g.buttons 14).getD false || axisNeg g.axes 0
          right := (g.buttons 15).getD false || axisPos g.axes 0 }
    | none =>
        { old with
          a := false, b := false, x := false, y := false
          select := false, start := false
          up := false, down := false, left := false, right := false }
  let buf := if keys "ArrowUp" then { buf with up := true } else buf
  let buf := if keys "ArrowDown" then { buf with down := true } else buf
  let buf := if keys "ArrowLeft" then { buf with left := true } else buf
  let buf := if keys "ArrowRight" then { buf with right := true } else buf
  buf

/-- Gameplay face-button mapping: the pair (o, x) as computed by the
`if (!this.swapButtons)` / `else` blocks of `poll`'s GAME branch. -/
def gameOX (swapButtons : Bool) (buf : Buf) (keys : Keys) : Bool × Bool :=
  if !swapButtons then
    let o := buf.a || buf.y
    let x := buf.b || buf.x
    let o := o || (keys "z" || keys "Z" || keys "c" || keys "C" ||
      keys "n" || keys "N")
    let x := x || (keys "x" || keys "X" || keys "v" || keys "V" ||
      keys "m" || keys "M")
    (o, x)
  else
    let o := buf.b || buf.x
    let x := buf.a || buf.y
    let o := o || (keys "x" || keys "X" || keys "v" || keys "V" ||
      keys "m" || keys "M")
    let x := x || (keys "z" || keys "Z" || keys "c" || keys "C" ||
      keys "n" || keys "N")
    (o, x)

/-- The packed gameplay bitmask built in `poll`'s GAME branch
(left=1, right=2, up=4, down=8, o=16, x=32). -/
def gameMask (swapButtons : Bool) (buf : Buf) (keys : Keys) : Nat :=
  let mask : Nat := 0
  let mask := if buf.left then mask ||| 1 else mask
  let mask := if buf.right then mask ||| 2 else mask
  let mask := if buf.up then mask ||| 4 else mask
  let mask := if buf.down then mask ||| 8 else mask
  let ox := gameOX swapButtons buf keys
  let mask := if ox.1 then mask ||| 16 else mask
  let mask := if ox.2 then mask ||| 32 else mask
  mask

/-- The same sequential bit-OR chain over abstract flags, for reasoning. -/
def maskOf (l r u d o x : Bool) : Nat :=
  let mask : Nat := 0
  let mask := if l then mask ||| 1 else mask
  let mask := if r then mask ||| 2 else mask
  let mask := if u then mask ||| 4 else mask
  let mask := if d then mask ||| 8 else mask
  let mask := if o then mask ||| 16 else mask
  let mask := if x then mask ||| 32 else mask
  mask

/-- Spec-side list of the "O" sources for a given swap setting: the two
gamepad face buttons and the six dedicated keyboard keys. -/
def oSources (swapButtons : Bool) (buf : Buf) (keys : Keys) : List Bool :=
  if swapButtons then
    [buf.b, buf.x, keys "x", keys "X", keys "v", keys "V", keys "m", keys "M"]
  else
    [buf.a, buf.y, keys "z", keys "Z", keys "c", keys "C", keys "n", keys "N"]

/-- Spec-side list of the "X" sources for a given swap setting. -/
def xSources (swapButtons : Bool) (buf : Buf) (keys : Keys) : List Bool :=
  if swapButtons then
    [buf.a, buf.y, keys "z", keys "Z", keys "c", keys "C", keys "n", keys "N"]
  else
    [buf.b, buf.x, keys "x", keys "X", keys "v", keys "V", keys "m", keys "M"]

/-- The menu trigger condition of `poll`'s GAME branch:
select, start, Escape, "p" or "P". -/
def menuPressed (buf : Buf) (keys : Keys) : Bool :=
  buf.select || buf.start || keys "Escape" || keys "p" || keys "P"

/-- Navigation-mode confirm condition: one gamepad face button (swappable)
OR'd with the fixed keyboard aliases z, Z, Enter, Space. -/
def uiConfirm (swapButtons : Bool) (buf : Buf) (keys : Keys) : Bool :=
  let c := if !swapButtons then buf.a else buf.b
  c || (keys "z" || keys "Z" || keys "Enter" || keys " ")

/-- Navigation-mode back condition: one gamepad face button (swappable)
OR'd with the fixed keyboard aliases x, X, Backspace, Escape. -/
def uiBack (swapButtons : Bool) (buf : Buf) (keys : Keys) : Bool :=
  let b := if !swapButtons then buf.b else buf.a
  b || (keys "x" || keys "X" || keys "Backspace" || keys "Escape")

/-- `emitOnce`: fire the event and latch its edge memory unless already
latched; returns the new edge memory and the emitted events. -/
def emitOnce (ev : Ev) (es : EdgeState) : EdgeState × List Ev :=
  if !es.get ev then (es.set ev true, [ev]) else (es, [])

/-- `emitChange`: rising-edge emission with the swap-guard. On a pressed
input, fire only if the edge memory was clear and latch it; on a released
input, clear the memory unless the one-frame guard is up and the event is
"back" or "confirm". -/
def emitChange (ev : Ev) (isPressed : Bool) (justSwapped : Bool)
    (es : EdgeState) : EdgeState × List Ev :=
  if isPressed then
    if !es.get ev then (es.set ev true, [ev]) else (es, [])
  else
    if justSwapped && (ev = Ev.back || ev = Ev.confirm) then (es, [])
    else (es.set ev false, [])

/-- One `poll` call: sample devices, then either write the gameplay bitmask
and evaluate the menu trigger (GAME) or run the six navigation edge
detectors (UI). Returns the new state and the emitted events in order. -/
def poll (gp : Option Gamepad) (s : IMState) : IMState × List Ev :=
  let buf := sample gp s.keys s.inputBuffer
  if s.inputMode = Mode.GAME then
    let mask := gameMask s.swapButtons buf s.keys
    let r :=
      if menuPressed buf s.keys then emitOnce Ev.menu s.lastButtonState
      else (s.lastButtonState.set Ev.menu false, [])
    ({ s with inputBuffer := buf, lastButtonState := r.1, pico8 := mask }, r.2)
  else
    let r1 := emitChange Ev.navUp buf.up s.justSwapped s.lastButtonState
    let r2 := emitChange Ev.navDown buf.down s.justSwapped r1.1
    let r3 := emitChange Ev.navLeft buf.left s.justSwapped r2.1
    let r4 := emitChange Ev.navRight buf.right s.justSwapped r3.1
    let c := uiConfirm s.swapButtons buf s.keys
    let b := uiBack s.swapButtons buf s.keys
    let r5 := emitChange Ev.confirm c s.justSwapped r4.1
    let r6 := emitChange Ev.back b s.justSwapped r5.1
    ({ s with inputBuffer := buf, lastButtonState := r6.1 },
      r1.2 ++ r2.2 ++ r3.2 ++ r4.2 ++ r5.2 ++ r6.2)

/-- Iterate `poll` with a fixed gamepad reading, collecting all events. -/
def pollN : Nat → Option Gamepad → IMState → IMState × List Ev
  | 0, _, s => (s, [])
  | n + 1, gp, s =>
      let r := poll gp s
      let rest := pollN n gp r.1
      (rest.1, r.2 ++ rest.2)

/-- `setMode`: only the strings "UI" and "GAME" are accepted; a valid call
replaces `lastButtonState` by a fresh all-false object and, when entering
UI mode, zeroes `pico8_buttons[0]`. -/
def setMode (mode : String) (s : IMState) : IMState :=
  if mode = "UI" ∨ mode = "GAME" then
    let s1 := { s with
      inputMode := if mode = "UI" then Mode.UI else Mode.GAME
      lastButtonState := EdgeState.init }
    if mode = "UI" then { s1 with pico8 := 0 } else s1
  else s

/-- `destroy`: cancel the scheduled frame (if any), detach the keyboard
listeners and mark the driver inactive. -/
def destroy (s : IMState) : IMState :=
  let s1 := if s.loopScheduled then { s with loopScheduled := false } else s
  { s1 with keyboardAttached := false, active := false }

/-- The `watch` callback on the store's swap setting: cache the new value;
if it really changed while in UI mode, force the confirm/back edge memory
to held and raise the one-frame guard. -/
def onSwapChange (newVal : Bool) (s : IMState) : IMState :=
  let oldVal := s.swapButtons
  let s1 := { s with swapButtons := newVal }
  if s1.inputMode = Mode.UI ∧ newVal ≠ oldVal then
    { s1 with
      lastButtonState :=
        { s1.lastButtonState with back := true, confirm := true }
      justSwapped := true }
  else s1

/-- `handleKey`: record a key-down / key-up transition in the key table. -/
def handleKey (k : String) (pressed : Bool) (s : IMState) : IMState :=
  { s with keys := fun q => if q = k then pressed else s.keys q }

/-- The (UI-mode) pressed condition feeding each navigation event's edge
detector on a frame, as `poll` computes it from the fresh sample. -/
def uiPressed (ev : Ev) (gp : Option Gamepad) (swapButtons : Bool)
    (keys : Keys) (old : Buf) : Bool :=
  let buf := sample gp keys old
  match ev with
  | Ev.menu => false
  | Ev.navUp => buf.up
  | Ev.navDown => buf.down
  | Ev.navLeft => buf.left
  | Ev.navRight => buf.right
  | Ev.confirm => uiConfirm swapButtons buf keys
  | Ev.back => uiBack swapButtons buf keys

/-- Concrete state: gameplay mode with the keyboard "z" key held. -/
def stateGameZ : IMState :=
  { initState with inputMode := Mode.GAME, keys := fun k => k == "z" }

/-- Concrete state: gameplay mode with the keyboard "P" key held. -/
def stateGameP : IMState :=
  { initState with inputMode := Mode.GAME, keys := fun k => k == "P" }

/-- Concrete state: UI mode with the dedicated menu key "p" held. -/
def stateUIMenuKey : IMState :=
  { initState with keys := fun k => k == "p" }

/-- Concrete state: UI mode with the "Enter" key held. -/
def stateUIEnter : IMState :=
  { initState with keys := fun k => k == "Enter" }

/-- Concrete state: gameplay mode, confirm edge memory stale (held across a
mode switch), "Enter" held. -/
def stateStaleConfirm : IMState :=
  { initState with
    inputMode := Mode.GAME
    lastButtonState := { EdgeState.init with confirm := true }
    keys := fun k => k == "Enter" }

/-- Concrete state: UI mode with dirty edge memory and a nonzero bitmask. -/
def stateDirty : IMState :=
  { initState with
    lastButtonState := { EdgeState.init with back := true }
    pico8 := 7 }

/-- Concrete state: UI mode with the keyboard "x" (back alias) held. -/
def stateBackKey : IMState :=
  { initState with keys := fun k => k == "x" }

/-- Concrete gamepad object with no button entries and no axis values. -/
def gpEmpty : Gamepad :=
  { buttons := fun _ => none, axes := fun _ => none }

/-! Basic lemmas about edge memory and the edge detector. -/

theorem EdgeState.get_init (ev : Ev) : EdgeState.init.get ev = false := by
  cases ev <;> rfl

theorem EdgeState.get_set_same (es : EdgeState) (ev : Ev) (v : Bool) :
    (es.set ev v).get ev = v := by
  cases ev <;> rfl

theorem EdgeState.get_set_other (es : EdgeState) (ev ev2 : Ev) (v : Bool)
    (h : ev ≠ ev2) : (es.set ev2 v).get ev = es.get ev := by
  cases ev <;> cases ev2 <;> first | rfl | exact (h rfl).elim

/-- The events emitted by one `emitChange` call. -/
theorem emitChange_events (ev : Ev) (p g : Bool) (es : EdgeState) :
    (emitChange ev p g es).2 =
      if p = true ∧ es.get ev = false then [ev] else [] := by
  unfold emitChange
  cases p <;> cases h : es.get ev <;> simp [h] <;> split <;> rfl

/-- Occurrence count of an event in one `emitChange` call's output. -/
theorem emitChange_count (ev ev2 : Ev) (p g : Bool) (es : EdgeState) :
    List.count ev (emitChange ev2 p g es).2 =
      if ev = ev2 ∧ p = true ∧ es.get ev2 = false then 1 else 0 := by
  rw [emitChange_events]
  by_cases h1 : p = true ∧ es.get ev2 = false
  · by_cases h2 : ev = ev2 <;> simp [h1, h2, List.count_singleton]
  · simp [h1]

/-- `emitChange` leaves the edge memory of every other event alone. -/
theorem emitChange_get_other (ev ev2 : Ev) (p g : Bool) (es : EdgeState)
    (h : ev ≠ ev2) : ((emitChange ev2 p g es).1).get ev = es.get ev := by
  unfold emitChange
  cases p <;> simp
  · split
    · rfl
    · exact EdgeState.get_set_other es ev ev2 false h
  · split
    · exact EdgeState.get_set_other es ev ev2 true h
    · rfl

/-- With the guard down, `emitChange` stores exactly the sampled level. -/
theorem emitChange_get_self (ev : Ev) (p : Bool) (es : EdgeState) :
    ((emitChange ev p false es).1).get ev = p := by
  unfold emitChange
  cases p <;> simp
  · exact EdgeState.get_set_same es ev false
  · split
    · exact EdgeState.get_set_same es ev true
    · simp_all

/-- The sampler ignores the previous content of the reused buffer: every
field is reassigned each frame. -/
theorem sample_buffer_irrel (gp : Option Gamepad) (keys : Keys)
    (old1 old2 : Buf) : sample gp keys old1 = sample gp keys old2 := by
  cases gp <;> rfl

/-- The pressed condition of a navigation event does not depend on the
previous frame's buffer content. -/
theorem uiPressed_buffer_irrel (ev : Ev) (gp : Option Gamepad) (sw : Bool)
    (keys : Keys) (old1 old2 : Buf) :
    uiPressed ev gp sw keys old1 = uiPressed ev gp sw keys old2 := by
  unfold uiPressed
  rw [sample_buffer_irrel gp keys old1 old2]

/-- `poll` never touches mode, guard, keys or the cached swap flag, and
stores the fresh sample in the buffer. -/
theorem poll_state_inv (gp : Option Gamepad) (s : IMState) :
    ((poll gp s).1).inputMode = s.inputMode ∧
    ((poll gp s).1).justSwapped = s.justSwapped ∧
    ((poll gp s).1).keys = s.keys ∧
    ((poll gp s).1).swapButtons = s.swapButtons ∧
    ((poll gp s).1).inputBuffer = sample gp s.keys s.inputBuffer := by
  by_cases hm : s.inputMode = Mode.GAME <;> simp [poll, hm]

/-- Occurrence count of a navigation event in one UI-mode `poll`: one when
its pressed condition holds on a clear edge memory, zero otherwise. -/
theorem poll_ui_count (gp : Option Gamepad) (s : IMState) (ev : Ev)
    (hm : s.inputMode = Mode.UI) (hev : ev ≠ Ev.menu) :
    List.count ev (poll gp s).2 =
      if uiPressed ev gp s.swapButtons s.keys s.inputBuffer = true ∧
          s.lastButtonState.get ev = false then 1 else 0 := by
  cases ev
  case menu => exact (hev rfl).elim
  all_goals
    simp [poll, hm, uiPressed, List.count_append, emitChange_count,
      emitChange_get_other]

/-- After a UI-mode `poll` with the guard down, each navigation event's
edge memory equals its sampled pressed condition. -/
theorem poll_ui_get (gp : Option Gamepad) (s : IMState) (ev : Ev)
    (hm : s.inputMode = Mode.UI) (hev : ev ≠ Ev.menu)
    (hg : s.justSwapped = false) :
    ((poll gp s).1).lastButtonState.get ev =
      uiPressed ev gp s.swapButtons s.keys s.inputBuffer := by
  cases ev
  case menu => exact (hev rfl).elim
  all_goals
    simp [poll, hm, hg, uiPressed, emitChange_get_self, emitChange_get_other]

/-- A navigation event whose input stays pressed on latched edge memory
emits nothing over any number of consecutive polls, and stays latched. -/
theorem pollN_pressed_latched (N : Nat) (gp : Option Gamepad) (s : IMState)
    (ev : Ev) (hm : s.inputMode = Mode.UI) (hev : ev ≠ Ev.menu)
    (hg : s.justSwapped = false)
    (hp : uiPressed ev gp s.swapButtons s.keys s.inputBuffer = true)
    (hh : s.lastButtonState.get ev = true) :
    List.count ev (pollN N gp s).2 = 0 ∧
    ((pollN N gp s).1).lastButtonState.get ev = true := by
  induction N generalizing s with
  | zero => exact ⟨rfl, hh⟩
  | succ n ih =>
      obtain ⟨h1, h2, h3, h4, h5⟩ := poll_state_inv gp s
      have hm2 : ((poll gp s).1).inputMode = Mode.UI := h1.trans hm
      have hg2 : ((poll gp s).1).justSwapped = false := h2.trans hg
      have hp2 : uiPressed ev gp ((poll gp s).1).swapButtons
          ((poll gp s).1).keys ((poll gp s).1).inputBuffer = true := by
        rw [h3, h4, uiPressed_buffer_irrel ev gp s.swapButtons s.keys
          ((poll gp s).1).inputBuffer s.inputBuffer]
        exact hp
      have hh2 : ((poll gp s).1).lastButtonState.get ev = true := by
        rw [poll_ui_get gp s ev hm hev hg]; exact hp
      have hc : List.count ev (poll gp s).2 = 0 := by
        rw [poll_ui_count gp s ev hm hev]
        simp [hh]
      obtain ⟨ihc, ihh⟩ := ih ((poll gp s).1) hm2 hg2 hp2 hh2
      refine ⟨?_, ihh⟩
      simp [pollN, List.count_append, hc, ihc]

/-- Bit content of the sequential OR chain: each weighted bit reflects
exactly its flag, and nothing above bit 5 is ever set. -/
theorem maskOf_spec : ∀ l r u d o x : Bool,
    ((maskOf l r u d o x) &&& 1 ≠ 0 ↔ l = true) ∧
    ((maskOf l r u d o x) &&& 2 ≠ 0 ↔ r = true) ∧
    ((maskOf l r u d o x) &&& 4 ≠ 0 ↔ u = true) ∧
    ((maskOf l r u d o x) &&& 8 ≠ 0 ↔ d = true) ∧
    ((maskOf l r u d o x) &&& 16 ≠ 0 ↔ o = true) ∧
    ((maskOf l r u d o x) &&& 32 ≠ 0 ↔ x = true) ∧
    maskOf l r u d o x < 64 := by
  decide

/-- The gameplay mask is the OR chain over the sampled directions and the
two mapped action buttons. -/
theorem gameMask_eq_maskOf (sw : Bool) (buf : Buf) (keys : Keys) :
    gameMask sw buf keys =
      maskOf buf.left buf.right buf.up buf.down
        (gameOX sw buf keys).1 (gameOX sw buf keys).2 := rfl

/-- The mapped "o" flag is true exactly when at least one "O" source for
the current swap setting is active. -/
theorem gameOX_fst (sw : Bool) (buf : Buf) (keys : Keys) :
    (gameOX sw buf keys).1 = (oSources sw buf keys).any id := by
  cases sw <;> simp [gameOX, oSources, Bool.or_assoc]

/-- The mapped "x" flag is true exactly when at least one "X" source for
the current swap setting is active. -/
theorem gameOX_snd (sw : Bool) (buf : Buf) (keys : Keys) :
    (gameOX sw buf keys).2 = (xSources sw buf keys).any id := by
  cases sw <;> simp [gameOX, xSources, Bool.or_assoc]

/-- A gameplay-mode poll writes the gameplay mask of the fresh sample to
the shared pico-8 slot. -/
theorem poll_game_pico8 (gp : Option Gamepad) (s : IMState)
    (hm : s.inputMode = Mode.GAME) :
    ((poll gp s).1).pico8 =
      gameMask s.swapButtons (sample gp s.keys s.inputBuffer) s.keys := by
  simp [poll, hm]

/-- Events of a gameplay-mode poll: a lone "menu" event on a rising edge of
the menu trigger, nothing otherwise. -/
theorem poll_game_events (gp : Option Gamepad) (s : IMState)
    (hm : s.inputMode = Mode.GAME) :
    (poll gp s).2 =
      if menuPressed (sample gp s.keys s.inputBuffer) s.keys = true ∧
          s.lastButtonState.menu = false then [Ev.menu] else [] := by
  by_cases h1 : menuPressed (sample gp s.keys s.inputBuffer) s.keys = true <;>
    by_cases h2 : s.lastButtonState.menu = false <;>
      simp_all [poll, hm, emitOnce, EdgeState.get]

/-- After a gameplay-mode poll the menu edge memory equals the current menu
trigger condition: latched while pressed, cleared as soon as released. -/
theorem poll_game_menu_mem (gp : Option Gamepad) (s : IMState)
    (hm : s.inputMode = Mode.GAME) :
    ((poll gp s).1).lastButtonState.menu =
      menuPressed (sample gp s.keys s.inputBuffer) s.keys := by
  by_cases h1 : menuPressed (sample gp s.keys s.inputBuffer) s.keys = true <;>
    by_cases h2 : s.lastButtonState.menu = false <;>
      simp_all [poll, hm, emitOnce, EdgeState.get, EdgeState.set]

/-! Claim theorems. -/

/-- Claim C1: on every gameplay-mode poll the value written to the shared
bitmask has bit 16 set iff at least one "O" source for the current swap
setting is active, bit 32 set iff at least one "X" source is active, the
direction bits 1/2/4/8 set iff the corresponding sampled direction flag is
true, and no bit above value 32 is ever set. -/
theorem gameplay_mask_bits (gp : Option Gamepad) (s : IMState)
    (hm : s.inputMode = Mode.GAME) :
    (((poll gp s).1).pico8 &&& 1 ≠ 0 ↔
      (sample gp s.keys s.inputBuffer).left = true) ∧
    (((poll gp s).1).pico8 &&& 2 ≠ 0 ↔
      (sample gp s.keys s.inputBuffer).right = true) ∧
    (((poll gp s).1).pico8 &&& 4 ≠ 0 ↔
      (sample gp s.keys s.inputBuffer).up = true) ∧
    (((poll gp s).1).pico8 &&& 8 ≠ 0 ↔
      (sample gp s.keys s.inputBuffer).down = true) ∧
    (((poll gp s).1).pico8 &&& 16 ≠ 0 ↔
      (oSources s.swapButtons (sample gp s.keys s.inputBuffer) s.keys).any
        id = true) ∧
    (((poll gp s).1).pico8 &&& 32 ≠ 0 ↔
      (xSources s.swapButtons (sample gp s.keys s.inputBuffer) s.keys).any
        id = true) ∧
    ((poll gp s).1).pico8 < 64 := by
  have h : ((poll gp s).1).pico8 =
      maskOf (sample gp s.keys s.inputBuffer).left
        (sample gp s.keys s.inputBuffer).right
        (sample gp s.keys s.inputBuffer).up
        (sample gp s.keys s.inputBuffer).down
        ((oSources s.swapButtons (sample gp s.keys s.inputBuffer)
          s.keys).any id)
        ((xSources s.swapButtons (sample gp s.keys s.inputBuffer)
          s.keys).any id) := by
    rw [poll_game_pico8 gp s hm, gameMask_eq_maskOf, gameOX_fst, gameOX_snd]
  rw [h]
  exact maskOf_spec _ _ _ _ _ _

/-- Witness for C1: with only the keyboard "z" key held in gameplay mode
the written mask stays below 64. -/
theorem gameplay_mask_bits_witness : ((poll none stateGameZ).1).pico8 < 64 :=
  (gameplay_mask_bits none stateGameZ rfl).2.2.2.2.2.2

/-- Claim C2: in Navigation mode (no swap-guard active) each navigation
event is strictly rising-edge triggered: over any run of N ≥ 1 consecutive
polls with the input held, exactly one event is emitted when the edge
memory started clear and none at all when it started latched; and a poll
in which the input reads not-pressed clears the edge memory, which is the
only way a later press can fire again. -/
theorem ui_rising_edge (ev : Ev) (gp : Option Gamepad) (s : IMState)
    (N : Nat) (hev : ev ≠ Ev.menu) (hm : s.inputMode = Mode.UI)
    (hg : s.justSwapped = false) :
    (uiPressed ev gp s.swapButtons s.keys s.inputBuffer = true →
      (s.lastButtonState.get ev = false → 1 ≤ N →
        List.count ev (pollN N gp s).2 = 1) ∧
      (s.lastButtonState.get ev = true →
        List.count ev (pollN N gp s).2 = 0)) ∧
    (uiPressed ev gp s.swapButtons s.keys s.inputBuffer = false →
      ((poll gp s).1).lastButtonState.get ev = false) := by
  constructor
  · intro hp
    constructor
    · intro hh hN
      obtain ⟨n, rfl⟩ : ∃ n, N = n + 1 := ⟨N - 1, (Nat.succ_pred_eq_of_pos hN).symm⟩
      obtain ⟨h1, h2, h3, h4, h5⟩ := poll_state_inv gp s
      have hm2 : ((poll gp s).1).inputMode = Mode.UI := h1.trans hm
      have hg2 : ((poll gp s).1).justSwapped = false := h2.trans hg
      have hp2 : uiPressed ev gp ((poll gp s).1).swapButtons
          ((poll gp s).1).keys ((poll gp s).1).inputBuffer = true := by
        rw [h3, h4, uiPressed_buffer_irrel ev gp s.swapButtons s.keys
          ((poll gp s).1).inputBuffer s.inputBuffer]
        exact hp
      have hh2 : ((poll gp s).1).lastButtonState.get ev = true := by
        rw [poll_ui_get gp s ev hm hev hg]; exact hp
      have hc : List.count ev (poll gp s).2 = 1 := by
        rw [poll_ui_count gp s ev hm hev]
        simp [hp, hh]
      have hrest :=
        pollN_pressed_latched n gp ((poll gp s).1) ev hm2 hev hg2 hp2 hh2
      simp [pollN, List.count_append, hc, hrest.1]
    · intro hh
      exact (pollN_pressed_latched N gp s ev hm hev hg hp hh).1
  · intro hp
    rw [poll_ui_get gp s ev hm hev hg, hp]

/-- Witness for C2: holding "Enter" (a confirm alias) across three UI
frames from a clear state emits exactly one "confirm" event. -/
theorem ui_rising_edge_witness :
    List.count Ev.confirm (pollN 3 none stateUIEnter).2 = 1 :=
  ((ui_rising_edge Ev.confirm none stateUIEnter 3 (by decide) rfl rfl).1
    (by decide)).1 rfl (by decide)

/-- Claim C6: on a frame where the sampler sees no gamepad, every
gamepad-sourced flag of the fresh sample is false regardless of the
previous buffer content, while the keyboard arrow keys still feed the four
direction flags. -/
theorem no_gamepad_deasserts (keys : Keys) (old1 old2 : Buf) :
    (sample none keys old1).a = false ∧
    (sample none keys old1).b = false ∧
    (sample none keys old1).x = false ∧
    (sample none keys old1).y = false ∧
    (sample none keys old1).start = false ∧
    (sample none keys old1).select = false ∧
    (sample none keys old1).up = keys "ArrowUp" ∧
    (sample none keys old1).down = keys "ArrowDown" ∧
    (sample none keys old1).left = keys "ArrowLeft" ∧
    (sample none keys old1).right = keys "ArrowRight" ∧
    sample none keys old1 = sample none keys old2 := by
  refine ⟨?_, ?_, ?_, ?_, ?_, ?_, ?_, ?_, ?_, ?_, sample_buffer_irrel _ _ _ _⟩ <;>
    unfold sample <;>
    cases h1 : keys "ArrowUp" <;> cases h2 : keys "ArrowDown" <;>
    cases h3 : keys "ArrowLeft" <;> cases h4 : keys "ArrowRight" <;>
    simp [h1, h2, h3, h4]

/-- Claim C7: `setMode` with any string other than "UI" or "GAME" is a
complete no-op on the whole service state (and, the embedding being total,
raises no error). -/
theorem setMode_invalid_noop (m : String) (s : IMState)
    (h1 : m ≠ "UI") (h2 : m ≠ "GAME") : setMode m s = s := by
  unfold setMode
  rw [if_neg]
  rintro (h | h) <;> simp_all

/-- Witness for C7 at the concrete invalid mode "PAUSE". -/
theorem setMode_invalid_noop_witness :
    setMode "PAUSE" initState = initState :=
  setMode_invalid_noop "PAUSE" initState (by decide) (by decide)

/-- Claim C10: `destroy` only cancels the scheduled frame, detaches the
keyboard listeners and marks the driver inactive; interaction mode, edge
memory, cached swap flag, key table, input buffer, guard flag and the
gameplay bitmask all keep their values. -/
theorem destroy_effects (s : IMState) :
    (destroy s).inputMode = s.inputMode ∧
    (destroy s).lastButtonState = s.lastButtonState ∧
    (destroy s).swapButtons = s.swapButtons ∧
    (destroy s).keys = s.keys ∧
    (destroy s).pico8 = s.pico8 ∧
    (destroy s).inputBuffer = s.inputBuffer ∧
    (destroy s).justSwapped = s.justSwapped ∧
    (destroy s).isAndroid = s.isAndroid ∧
    (destroy s).loopScheduled = false ∧
    (destroy s).keyboardAttached = false ∧
    (destroy s).active = false := by
  cases h : s.loopScheduled <;> simp [destroy, h]

/-- Claim C8: every consulted gamepad field that is absent reads as
not-pressed — an absent button entry zeroes the corresponding flag, and an
absent d-pad button with an absent axis leaves a direction to the keyboard
alone; the sampler is total, so no error can arise. -/
theorem missing_fields_not_pressed (g : Gamepad) (keys : Keys) (old : Buf) :
    (g.buttons 0 = none → (sample (some g) keys old).a = false) ∧
    (g.buttons 1 = none → (sample (some g) keys old).b = false) ∧
    (g.buttons 2 = none → (sample (some g) keys old).x = false) ∧
    (g.buttons 3 = none → (sample (some g) keys old).y = false) ∧
    (g.buttons 8 = none → (sample (some g) keys old).select = false) ∧
    (g.buttons 9 = none → (sample (some g) keys old).start = false) ∧
    (g.buttons 12 = none → g.axes 1 = none →
      (sample (some g) keys old).up = keys "ArrowUp") ∧
    (g.buttons 13 = none → g.axes 1 = none →
      (sample (some g) keys old).down = keys "ArrowDown") ∧
    (g.buttons 14 = none → g.axes 0 = none →
      (sample (some g) keys old).left = keys "ArrowLeft") ∧
    (g.buttons 15 = none → g.axes 0 = none →
      (sample (some g) keys old).right = keys "ArrowRight") := by
  refine ⟨fun h => ?_, fun h => ?_, fun h => ?_, fun h => ?_, fun h => ?_,
    fun h => ?_, fun h h2 => ?_, fun h h2 => ?_, fun h h2 => ?_,
    fun h h2 => ?_⟩
  all_goals
    unfold sample axisNeg axisPos
  all_goals
    cases h1 : keys "ArrowUp" <;> cases hq : keys "ArrowDown" <;>
    cases h3 : keys "ArrowLeft" <;> cases h4 : keys "ArrowRight" <;>
    simp_all

/-- Claim C5 counterexample: in Navigation (UI) mode, with the dedicated
menu key "p" freshly pressed and the menu edge memory clear, the poll
emits no "menu" event at all — the menu trigger is not evaluated in every
interaction mode. -/
theorem menu_not_processwide :
    stateUIMenuKey.inputMode = Mode.UI ∧
    menuPressed (sample none stateUIMenuKey.keys stateUIMenuKey.inputBuffer)
      stateUIMenuKey.keys = true ∧
    stateUIMenuKey.lastButtonState.get Ev.menu = false ∧
    List.count Ev.menu (poll none stateUIMenuKey).2 = 0 := by
  decide

/-- Claim C5 (amended): in Gameplay mode only, a rising edge of (start OR
select OR Escape OR "p"/"P") emits exactly one "menu" event, the menu edge
memory equals the trigger condition after the poll (so it is cleared on
any gameplay frame where no source is pressed), and the emitted events are
independent of the swap flag. -/
theorem menu_edge_in_game (gp : Option Gamepad) (s : IMState) (b : Bool)
    (hm : s.inputMode = Mode.GAME) :
    List.count Ev.menu (poll gp s).2 =
      (if menuPressed (sample gp s.keys s.inputBuffer) s.keys = true ∧
          s.lastButtonState.menu = false then 1 else 0) ∧
    ((poll gp s).1).lastButtonState.menu =
      menuPressed (sample gp s.keys s.inputBuffer) s.keys ∧
    (poll gp s).2 = (poll gp { s with swapButtons := b }).2 := by
  refine ⟨?_, poll_game_menu_mem gp s hm, ?_⟩
  · rw [poll_game_events gp s hm]
    split <;> simp
  · rw [poll_game_events gp s hm, poll_game_events gp { s with swapButtons := b } hm]

/-- Witness for C5 (amended): pressing "P" in gameplay mode from a clear
state emits exactly one "menu" event on that poll. -/
theorem menu_edge_in_game_witness :
    List.count Ev.menu (poll none stateGameP).2 =
      (if menuPressed (sample none stateGameP.keys stateGameP.inputBuffer)
          stateGameP.keys = true ∧
          stateGameP.lastButtonState.menu = false then 1 else 0) :=
  (menu_edge_in_game none stateGameP true rfl).1

/-- Claim C3: a `setMode` call with a valid mode resets every edge-memory
flag to not-pressed; entering UI (Navigation) mode additionally zeroes the
shared gameplay bitmask; and after a reset a pressed navigation input
fires exactly once on the next UI poll, so a press that survives a mode
round-trip fires as a fresh rising edge, never from stale memory. -/
theorem setMode_resets (s : IMState) (m : String)
    (hv : m = "UI" ∨ m = "GAME") :
    (setMode m s).lastButtonState = EdgeState.init ∧
    (m = "UI" → (setMode m s).pico8 = 0) ∧
    (∀ gp ev, ev ≠ Ev.menu →
      uiPressed ev gp s.swapButtons s.keys s.inputBuffer = true →
      List.count ev (poll gp (setMode "UI" s)).2 = 1) := by
  refine ⟨?_, ?_, ?_⟩
  · rcases hv with h | h <;> subst h <;> simp [setMode]
  · intro h; subst h; simp [setMode]
  · intro gp ev hev hp
    have hm2 : (setMode "UI" s).inputMode = Mode.UI := by simp [setMode]
    rw [poll_ui_count gp (setMode "UI" s) ev hm2 hev]
    have hfields : (setMode "UI" s).swapButtons = s.swapButtons ∧
        (setMode "UI" s).keys = s.keys ∧
        (setMode "UI" s).inputBuffer = s.inputBuffer ∧
        (setMode "UI" s).lastButtonState = EdgeState.init := by
      simp [setMode]
    rw [hfields.1, hfields.2.1, hfields.2.2.1, hfields.2.2.2, hp,
      EdgeState.get_init]
    simp

/-- Witness for C3: confirm edge memory stale from gameplay mode with
"Enter" held; switching back to UI resets the memory and the held press
fires exactly once on the next poll. -/
theorem setMode_resets_witness :
    List.count Ev.confirm (poll none (setMode "UI" stateStaleConfirm)).2 = 1 :=
  (setMode_resets stateStaleConfirm "GAME" (Or.inr rfl)).2.2 none Ev.confirm
    (by decide) (by decide)

/-- Claim C9: `setMode` with the current mode is not a no-op: it still
resets all edge memory, and re-entering UI (Navigation) mode also zeroes
the shared gameplay bitmask. -/
theorem setMode_same_mode_resets (s : IMState) :
    (s.inputMode = Mode.UI →
      (setMode "UI" s).inputMode = Mode.UI ∧
      (setMode "UI" s).lastButtonState = EdgeState.init ∧
      (setMode "UI" s).pico8 = 0) ∧
    (s.inputMode = Mode.GAME →
      (setMode "GAME" s).inputMode = Mode.GAME ∧
      (setMode "GAME" s).lastButtonState = EdgeState.init) := by
  constructor <;> intro h <;> simp [setMode]

/-- Witness for C9: a UI-mode state with dirty edge memory and a nonzero
bitmask is actually cleaned by a same-mode `setMode "UI"` call. -/
theorem setMode_same_mode_resets_witness :
    (setMode "UI" stateDirty).lastButtonState = EdgeState.init ∧
    (setMode "UI" stateDirty).pico8 = 0 :=
  ⟨((setMode_same_mode_resets stateDirty).1 rfl).2.1,
    ((setMode_same_mode_resets stateDirty).1 rfl).2.2⟩

/-- Claim C4: a swap-flag change in UI (Navigation) mode forces the
confirm/back edge memory to held and raises the one-frame guard; while the
guard is up the edge detector refuses to clear confirm/back memory on a
released input; consequently, even with a back input physically held when
the swap toggles, the poll of that frame emits no "confirm" and no "back"
event. -/
theorem swap_guard (s : IMState) (v : Bool) (hm : s.inputMode = Mode.UI)
    (hv : v ≠ s.swapButtons) :
    (onSwapChange v s).lastButtonState.confirm = true ∧
    (onSwapChange v s).lastButtonState.back = true ∧
    (onSwapChange v s).justSwapped = true ∧
    (∀ es : EdgeState,
      ((emitChange Ev.confirm false true es).1).get Ev.confirm =
        es.get Ev.confirm ∧
      ((emitChange Ev.back false true es).1).get Ev.back = es.get Ev.back) ∧
    (∀ gp, uiPressed Ev.back gp (onSwapChange v s).swapButtons
        (onSwapChange v s).keys (onSwapChange v s).inputBuffer = true →
      List.count Ev.confirm (poll gp (onSwapChange v s)).2 = 0 ∧
      List.count Ev.back (poll gp (onSwapChange v s)).2 = 0) := by
  have hcond : (onSwapChange v s).lastButtonState.confirm = true ∧
      (onSwapChange v s).lastButtonState.back = true ∧
      (onSwapChange v s).justSwapped = true ∧
      (onSwapChange v s).inputMode = Mode.UI := by
    simp [onSwapChange, hm, hv]
  refine ⟨hcond.1, hcond.2.1, hcond.2.2.1, ?_, ?_⟩
  · intro es; exact ⟨rfl, rfl⟩
  · intro gp _
    constructor
    · rw [poll_ui_count gp (onSwapChange v s) Ev.confirm hcond.2.2.2
        (by decide)]
      simp [EdgeState.get, hcond.1]
    · rw [poll_ui_count gp (onSwapChange v s) Ev.back hcond.2.2.2
        (by decide)]
      simp [EdgeState.get, hcond.2.1]

/-- Witness for C4: toggling the swap flag while the keyboard "x" key (a
back alias) is held in UI mode emits neither "confirm" nor "back" on that
frame's poll. -/
theorem swap_guard_witness :
    List.count Ev.confirm (poll none (onSwapChange true stateBackKey)).2 = 0 ∧
    List.count Ev.back (poll none (onSwapChange true stateBackKey)).2 = 0 :=
  (swap_guard stateBackKey true rfl (by decide)).2.2.2.2 none (by decide)

/-- Witness for C8: a gamepad object with no button entries and no axis
values yields false action flags and keyboard-only directions. -/
theorem missing_fields_not_pressed_witness :
    (sample (some gpEmpty) (fun _ => false) initState.inputBuffer).a =
      false ∧
    (sample (some gpEmpty) (fun _ => false) initState.inputBuffer).up =
      (fun _ : String => false) "ArrowUp" :=
  ⟨(missing_fields_not_pressed gpEmpty (fun _ => false)
      initState.inputBuffer).1 rfl,
    (missing_fields_not_pressed gpEmpty (fun _ => false)
      initState.inputBuffer).2.2.2.2.2.2.1 rfl rfl⟩

end PicoInput
